import Mathlib

/-!
# Verification of the Fenbi AI Scheduler goal/progress reconciliation engine

Shallow embedding of the goal/schedule reconciliation logic of `app.py`
(`get_dashboard_data`, `get_training_details` and their helpers), together
with theorems settling the frozen claims about the natural-language
specification.

Conventions:
* Python `datetime` values are modelled by the structure `DT`; comparison of
  `datetime` objects is modelled by comparing the injective key `DT.key`
  (lexicographic on year, month, day, hour, minute, second for in-range
  values, which is all the parser can produce).
* `datetime.strptime` for the three formats used by the source
  (`%Y-%m-%d %H:%M:%S`, `%Y-%m-%d %H:%M`) is modelled by an executable
  parser with CPython's field regexes (1–2 digit fields with the documented
  value bounds, exactly 4 digits for the year, whole input must be consumed)
  followed by the `datetime` constructor validation (year ≥ 1, day within
  the month, second ≤ 59).  A raised `ValueError` is modelled by `none`.
* Python dicts holding records / goals / schedule items are modelled by
  structures; a `.get(key, default)` on a possibly-missing key is modelled
  by an `Option` field with `Option.getD`.
* Counts (`questions_answered`, `incorrect_answers`, …) are modelled by `ℕ`,
  matching their domain (they are question counts read back from the
  per-category result databases).
-/

/-- Test whether the char list `p` is a prefix of `l`. -/
def chPre : List Char → List Char → Bool
  | [], _ => true
  | _ :: _, [] => false
  | p :: ps, c :: cs => (p = c) && chPre ps cs

/-- Test whether the char list `p` occurs contiguously inside `l`
(Python's `p in l` on strings). -/
def chSub (p : List Char) : List Char → Bool
  | [] => chPre p []
  | c :: cs => chPre p (c :: cs) || chSub p cs

/-- Python's substring containment `pat in s`. -/
def hasSub (s pat : String) : Bool := chSub pat.toList s.toList

/-- Python's `s.replace('.', '-')` (single-character pattern, so it maps
every `'.'` character to `'-'`). -/
def normalizeTs (s : String) : String :=
  String.mk (s.data.map (fun c => if c = '.' then '-' else c))

/-- A parsed `datetime.datetime` value. -/
structure DT where
  year : ℕ
  month : ℕ
  day : ℕ
  hour : ℕ
  minute : ℕ
  second : ℕ
deriving DecidableEq, Repr

/-- Injective key for comparing in-range `DT` values; agrees with the
lexicographic comparison Python uses on `datetime` objects because every
component produced by the parser is below its base. -/
def DT.key (t : DT) : ℕ :=
  ((((t.year * 13 + t.month) * 32 + t.day) * 24 + t.hour) * 60 + t.minute) * 60
    + t.second

/-- Gregorian leap year, as in Python's `calendar`/`datetime`. -/
def isLeap (y : ℕ) : Bool := y % 4 = 0 && (y % 100 != 0 || y % 400 = 0)

/-- Number of days in a month, as validated by the `datetime` constructor. -/
def daysInMonth (y m : ℕ) : ℕ :=
  if m = 2 then (if isLeap y then 29 else 28)
  else if m = 4 ∨ m = 6 ∨ m = 9 ∨ m = 11 then 30
  else 31

/-- The `datetime` constructor validation run by `strptime` after the regex
match: `MINYEAR ≤ year`, day within month, second ≤ 59 (the `%S` regex admits
60–61 but the constructor rejects them). -/
def mkDT (y mo d h mi s : ℕ) : Option DT :=
  if 1 ≤ y ∧ d ≤ daysInMonth y mo ∧ s ≤ 59 then some ⟨y, mo, d, h, mi, s⟩
  else none

/-- Value of a decimal digit character. -/
def digitVal (c : Char) : ℕ := c.toNat - 48

/-- Field `%Y`: exactly four digits. -/
def parseY4 : List Char → Option (ℕ × List Char)
  | a :: b :: c :: d :: rest =>
    if a.isDigit ∧ b.isDigit ∧ c.isDigit ∧ d.isDigit then
      some (((digitVal a * 10 + digitVal b) * 10 + digitVal c) * 10 + digitVal d,
            rest)
    else none
  | _ => none

/-- A 1–2 digit field: two digits are taken when their value satisfies `ok2`,
otherwise one digit is taken when its value satisfies `ok1` (this mirrors the
regex alternations CPython's `_strptime` uses; no further backtracking is
needed because every field here is followed by a non-digit literal or the end
of the input). -/
def parseN2 (ok2 ok1 : ℕ → Bool) : List Char → Option (ℕ × List Char)
  | a :: b :: rest =>
    if a.isDigit ∧ b.isDigit ∧ ok2 (digitVal a * 10 + digitVal b) then
      some (digitVal a * 10 + digitVal b, rest)
    else if a.isDigit ∧ ok1 (digitVal a) then some (digitVal a, b :: rest)
    else none
  | [a] => if a.isDigit ∧ ok1 (digitVal a) then some (digitVal a, []) else none
  | [] => none

/-- A literal character of the format string. -/
def lit (c : Char) : List Char → Option (List Char)
  | x :: rest => if x = c then some rest else none
  | [] => none

/-- Whitespace in a `strptime` format matches one or more spaces. -/
def spaces1 : List Char → Option (List Char)
  | ' ' :: rest => some (rest.dropWhile (· = ' '))
  | _ => none

def ok2month (v : ℕ) : Bool := 1 ≤ v && v ≤ 12
def ok2day (v : ℕ) : Bool := 1 ≤ v && v ≤ 31
def ok2hour (v : ℕ) : Bool := v ≤ 23
def ok2min (v : ℕ) : Bool := v ≤ 59
def ok2sec (v : ℕ) : Bool := v ≤ 61
def ok1pos (v : ℕ) : Bool := 1 ≤ v
def ok1any (_ : ℕ) : Bool := true

/-- The shared `%Y-%m-%d %H:%M` head of both timestamp formats. -/
def parseYmdHM (cs : List Char) : Option (ℕ × ℕ × ℕ × ℕ × ℕ × List Char) := do
  let (y, cs) ← parseY4 cs
  let cs ← lit '-' cs
  let (mo, cs) ← parseN2 ok2month ok1pos cs
  let cs ← lit '-' cs
  let (d, cs) ← parseN2 ok2day ok1pos cs
  let cs ← spaces1 cs
  let (h, cs) ← parseN2 ok2hour ok1any cs
  let cs ← lit ':' cs
  let (mi, cs) ← parseN2 ok2min ok1any cs
  return (y, mo, d, h, mi, cs)

/-- Model of `datetime.strptime(s, '%Y-%m-%d %H:%M:%S')`; `none` models the
raised `ValueError`. -/
def strptimeYmdHMS (s : String) : Option DT :=
  match parseYmdHM s.toList with
  | some (y, mo, d, h, mi, rest) =>
    match lit ':' rest with
    | some cs =>
      match parseN2 ok2sec ok1any cs with
      | some (sec, []) => mkDT y mo d h mi sec
      | _ => none
    | none => none
  | none => none

/-- Model of `datetime.strptime(s, '%Y-%m-%d %H:%M')`; `none` models the
raised `ValueError`. -/
def strptimeYmdHM (s : String) : Option DT :=
  match parseYmdHM s.toList with
  | some (y, mo, d, h, mi, []) => mkDT y mo d h mi 0
  | _ => none

/-- Timestamp normalization and two-format fallback used for every record
(`normalized_ts = record_time_str.replace('.', '-')`, try `%Y-%m-%d %H:%M:%S`,
fall back to `%Y-%m-%d %H:%M`); `none` models the record being skipped. -/
def parseRecordTs (s : String) : Option DT :=
  let n := normalizeTs s
  match strptimeYmdHMS n with
  | some t => some t
  | none => strptimeYmdHM n

/-! ## Data model -/

/-- A schedule item dict (`DailySchedule.schedule_items` entry).  Fields are
`Option` because the source reads them with `.get(key, default)`. -/
structure ScheduleItem where
  start_time : Option String
  end_time : Option String
  activity : Option String
  details : Option String
deriving DecidableEq, Repr

/-- A study-plan goal dict (`StudyPlan.goals` entry). -/
structure Goal where
  type : String
  target_questions : ℕ
  target_accuracy : Option ℕ
  target_time_minutes : Option ℕ
deriving DecidableEq, Repr

/-- A submission record (`AnalysisResult.to_dict()`), restricted to the
fields the reconciliation engine reads. -/
structure SubmissionRecord where
  id : ℕ
  practice_type : String
  submission_time : String
  questions_answered : ℕ
  incorrect_answers : ℕ
  unanswered_questions : ℕ
deriving DecidableEq, Repr

/-- The data read (and, for the schedule, sorted in place) by one
`get_training_details` / `get_dashboard_data` computation: the day's plan
goals, the day's schedule items (`none` when the schedule row is missing or
its items are null), and the concatenation of the day's per-category record
sets. -/
structure TDState where
  goals : List Goal
  scheduleItems : Option (List ScheduleItem)
  records : List SubmissionRecord
deriving DecidableEq, Repr

/-- The payload of a successful `get_training_details` response. -/
structure TDOut where
  goal : Goal
  answered_questions : ℕ
  percentage : ℕ
deriving DecidableEq, Repr

/-! ## Schedule/goal alignment -/

/-- The fixed training-keyword set of the source. -/
def trainingKeywords : List String :=
  ["训练", "学习", "测试", "复盘", "模考", "专项", "言语", "数量", "判断", "资料", "常识"]

/-- Lexicographic comparison of char lists by code point — Python's `<=` on
strings. -/
def chLe : List Char → List Char → Bool
  | [], _ => true
  | _ :: _, [] => false
  | a :: as, b :: bs =>
    if a.toNat < b.toNat then true
    else if b.toNat < a.toNat then false
    else chLe as bs

/-- Python's `<=` on strings (lexicographic by code point). -/
def strLe (a b : String) : Bool := chLe a.data b.data

/-- Sort key: `item.get('start_time', '')`. -/
def itemKey (it : ScheduleItem) : String := it.start_time.getD ""

/-- Model of `schedule.schedule_items.sort(key=lambda x: x.get('start_time', ''))`;
Python's sort is stable, so it is modelled by a stable sort by the key. -/
def sortScheduleItems (items : List ScheduleItem) : List ScheduleItem :=
  List.insertionSort (fun a b => strLe (itemKey a) (itemKey b) = true) items

/-- The training filter of the source: `any(k in item.get('activity', '')
for k in [...])` — only the `activity` field is consulted. -/
def isTrainingItem (it : ScheduleItem) : Bool :=
  trainingKeywords.any (fun k => hasSub (it.activity.getD "") k)

/-- The `details` field contains a training keyword (used to state claims
about the filter; the source's filter itself never reads `details`). -/
def detailsHasTrainingKeyword (it : ScheduleItem) : Bool :=
  trainingKeywords.any (fun k => hasSub (it.details.getD "") k)

/-- Computation of `training_items`: sort by `start_time`, keep
activity-keyword matches. -/
def trainingItemsOf (items : List ScheduleItem) : List ScheduleItem :=
  (sortScheduleItems items).filter isTrainingItem

/-- Review-goal test `'复盘' in goal.get('type', '') or '错题' in goal.get('type', '')`. -/
def isReviewGoal (g : Goal) : Bool := hasSub g.type "复盘" || hasSub g.type "错题"

/-- Model of the sort in `get_todays_full_records`: the day's records sorted
stably by the raw `submission_time` string. -/
def sortRecords (records : List SubmissionRecord) : List SubmissionRecord :=
  List.insertionSort
    (fun a b => strLe a.submission_time b.submission_time = true) records

/-! ## Review-goal target calculation (`get_training_details`) -/

/-- The keyword → canonical subject-name mapping of the source
(`keyword_to_canonical`), in insertion order. -/
def keywordToCanonical : List (String × String) :=
  [("言语", "言语理解与表达"), ("数量", "数量关系"), ("判断", "判断推理"),
   ("资料", "资料分析"), ("常识", "常识判断"), ("图形", "图形推理")]

/-- Computation of `subjects_to_review`: canonical names whose keyword occurs
in the current item's `details` text. -/
def subjectsToReview (detailsText : String) : List String :=
  (keywordToCanonical.filter (fun p => hasSub detailsText p.1)).map Prod.snd

/-- The review-window membership test of the source:
`last_review_end_dt <= record_time_dt < current_review_start_dt`
(half-open). -/
def reviewInWindow (lo hi t : DT) : Bool :=
  decide (lo.key ≤ t.key) && decide (t.key < hi.key)

/-- The ordinary-goal window membership test of the source:
`start_time_dt <= record_time_dt <= end_time_dt` (closed). -/
def ordInWindow (lo hi t : DT) : Bool :=
  decide (lo.key ≤ t.key) && decide (t.key ≤ hi.key)

/-- Computation of `last_review_end_time_str`: scan backward from `gid - 1` for the most
recent prior review-type goal; if found at index `i`, use
`f"{date} {training_items[i].get('end_time', '00:00')}:00"` (keeping the
day-start default when `i` is out of range of `training_items`), else the
day start `f"{date} 00:00:00"`. -/
def lastReviewEndStr (date : String) (goals : List Goal)
    (tItems : List ScheduleItem) : ℕ → String
  | 0 => date ++ " 00:00:00"
  | i + 1 =>
    match goals[i]? with
    | some g =>
      if isReviewGoal g then
        match tItems[i]? with
        | some it => date ++ " " ++ (it.end_time.getD "00:00") ++ ":00"
        | none => date ++ " 00:00:00"
      else lastReviewEndStr date goals tItems i
    | none => lastReviewEndStr date goals tItems i

/-- The record loop of the review-target calculation: `processed` is the
`processed_record_ids` set (created afresh by every call), `acc` the running
`target_count`.  A record whose id was already counted is skipped; an
unparsable timestamp is skipped; otherwise the record counts
`incorrect_answers + unanswered_questions` when it lies in the half-open
window and passes the subject filter, and its id is marked processed. -/
def reviewTargetLoop (lo hi : DT) (subjects : List String) :
    List SubmissionRecord → List ℕ → ℕ → ℕ
  | [], _, acc => acc
  | r :: rs, processed, acc =>
    if r.id ∈ processed then reviewTargetLoop lo hi subjects rs processed acc
    else
      match parseRecordTs r.submission_time with
      | none => reviewTargetLoop lo hi subjects rs processed acc
      | some t =>
        if reviewInWindow lo hi t then
          if subjects = [] ∨ r.practice_type ∈ subjects then
            reviewTargetLoop lo hi subjects rs (r.id :: processed)
              (acc + (r.incorrect_answers + r.unanswered_questions))
          else reviewTargetLoop lo hi subjects rs processed acc
        else reviewTargetLoop lo hi subjects rs processed acc

/-- The dynamic review-goal recalculation step of `get_training_details`:
returns the (fresh copy of the) goal, with `target_questions` replaced for
an aligned review goal; `none` models an uncaught `ValueError` from
`strptime` on the window boundary strings. -/
def recalcReviewGoal (date : String) (gid : ℕ) (s : TDState) (goal0 : Goal) :
    Option Goal :=
  match s.scheduleItems with
  | none => some goal0
  | some items =>
    if isReviewGoal goal0 = true ∧ items ≠ [] then
      let tItems := trainingItemsOf items
      match tItems[gid]? with
      | none => some goal0
      | some cur =>
        match strptimeYmdHMS (lastReviewEndStr date s.goals tItems gid),
              strptimeYmdHMS (date ++ " " ++ cur.start_time.getD "23:59" ++ ":00") with
        | some lo, some hi =>
          some { goal0 with
                 target_questions :=
                   reviewTargetLoop lo hi (subjectsToReview (cur.details.getD ""))
                     (sortRecords s.records) [] 0 }
        | _, _ => none
    else some goal0

/-! ## Time-window attribution of answered questions -/

/-- The per-goal attribution loop shared by `get_training_details` and
`get_dashboard_data`: sum `questions_answered` over records whose
`practice_type` equals the goal's type, whose `submission_time` is non-empty
and parses, and whose timestamp lies in the closed window. -/
def windowAnswered (lo hi : DT) (ptype : String) :
    List SubmissionRecord → ℕ
  | [] => 0
  | r :: rs =>
    (if r.practice_type = ptype ∧ r.submission_time ≠ "" then
      match parseRecordTs r.submission_time with
      | some t => if ordInWindow lo hi t then r.questions_answered else 0
      | none => 0
     else 0) + windowAnswered lo hi ptype rs

/-- The single-goal progress computation of `get_training_details`: the
window runs from `f"{date} {start}:00"` to `f"{date} {end}:59"` (end minute
extended to second 59); `none` models an uncaught `ValueError` from
`strptime` on those strings. -/
def detailsAnswered (date : String) (gid : ℕ) (s : TDState) (ptype : String) :
    Option ℕ :=
  match s.scheduleItems with
  | none => some 0
  | some items =>
    if items ≠ [] then
      match (trainingItemsOf items)[gid]? with
      | none => some 0
      | some cur =>
        match strptimeYmdHMS (date ++ " " ++ cur.start_time.getD "00:00" ++ ":00"),
              strptimeYmdHMS (date ++ " " ++ cur.end_time.getD "23:59" ++ ":59") with
        | some lo, some hi =>
          some (windowAnswered lo hi ptype (sortRecords s.records))
        | _, _ => none
    else some 0

/-! ## Percentages -/

/-- Python 3's `round` on an exact rational: round half to even.  This is
the specification-level definition; the executable code-level computation
`pyRoundNat` below is proved to agree with it. -/
def pyRound (q : ℚ) : ℤ :=
  if q - (⌊q⌋ : ℚ) < 1 / 2 then ⌊q⌋
  else if 1 / 2 < q - (⌊q⌋ : ℚ) then ⌊q⌋ + 1
  else if ⌊q⌋ % 2 = 0 then ⌊q⌋
  else ⌊q⌋ + 1

/-- Banker's rounding of `num / den` computed on naturals, for `den > 0`. -/
def pyRoundNat (num den : ℕ) : ℕ :=
  if 2 * (num % den) < den then num / den
  else if den < 2 * (num % den) then num / den + 1
  else if (num / den) % 2 = 0 then num / den
  else num / den + 1

/-- The per-goal percentage computation used by both
`get_training_details` and `get_dashboard_data`:
`min(100, round(answered / target * 100))` when `target > 0`, else `100`
when `answered > 0`, else `0`.  Since `answered / target * 100` is the exact
rational `(100 * answered) / target`, the rounding is computed by
`pyRoundNat`. -/
def pct (target answered : ℕ) : ℕ :=
  if 0 < target then min 100 (pyRoundNat (100 * answered) target)
  else if 0 < answered then 100
  else 0

/-- The day-aggregate percentage of `get_dashboard_data` (step 5). -/
def dayPct (totalTarget progressTotal rawTotal : ℕ) : ℕ :=
  if 0 < totalTarget then min 100 (pyRoundNat (100 * progressTotal) totalTarget)
  else if 0 < rawTotal then 100
  else 0

/-! ## `get_training_details` -/

/-- One `get_training_details` computation for `date` and `goal_id`.
`none` models both the "Goal not found" error response and an uncaught
exception; on success the result carries the response payload and the
final state (the schedule items having been sorted in place, the goals and
records untouched). -/
def getTrainingDetails (date : String) (goal_id : ℕ) (s : TDState) :
    Option (TDOut × TDState) :=
  match s.goals[goal_id]? with
  | none => none
  | some goal0 =>
    match recalcReviewGoal date goal_id s goal0 with
    | none => none
    | some goal1 =>
      match detailsAnswered date goal_id s goal0.type with
      | none => none
      | some answered =>
        some (⟨goal1, answered, pct goal1.target_questions answered⟩,
              { s with scheduleItems := s.scheduleItems.map sortScheduleItems })


/-! ## `get_dashboard_data` -/

/-- One entry of `goals_progress`. -/
structure GoalProgress where
  id : ℕ
  type : String
  target_questions : ℕ
  answered_questions : ℕ
  percentage : ℕ
  start_time : Option String
  end_time : Option String
deriving DecidableEq, Repr

/-- The dictionary returned by `get_dashboard_data`. -/
structure DashOut where
  total_answered : ℕ
  total_target : ℕ
  percentage : ℕ
  goals_progress : List GoalProgress
deriving DecidableEq, Repr

/-- Model of `sum(answered_by_category.values())`: the day's raw answered total as
produced by `get_todays_answered_questions_summary`, i.e. the sum of
`questions_answered` over every record of the day, regardless of goal
windows. -/
def summaryTotal (records : List SubmissionRecord) : ℕ :=
  (records.map SubmissionRecord.questions_answered).sum

/-- Step 3 of `get_dashboard_data`: walk the goals with their index,
stopping (`break`) at the first goal with no aligned training item, and for
each review-type goal replace its target by the one computed by an internal
`get_training_details` call on the same data; `none` models an exception
escaping from that internal call. -/
def updateGoalsStep (date : String) (s : TDState) (tItems : List ScheduleItem) :
    ℕ → List Goal → Option (List Goal)
  | _, [] => some []
  | i, g :: gs =>
    if tItems.length ≤ i then some (g :: gs)
    else if isReviewGoal g then
      match getTrainingDetails date i s with
      | some (out, _) =>
        (updateGoalsStep date s tItems (i + 1) gs).map
          (fun rest => { g with target_questions := out.goal.target_questions } :: rest)
      | none => none
    else (updateGoalsStep date s tItems (i + 1) gs).map (g :: ·)

/-- Step 4 of `get_dashboard_data`: one `goals_progress` entry per goal.  A
goal with an aligned training item gets the closed window
`[date start_time, date end_time]` parsed with `'%Y-%m-%d %H:%M'` (so the
end bound is at second 0 of the end minute); a goal without one reports
`answered = 0` and no window.  `none` models an uncaught `ValueError`. -/
def dashGoalsProgress (date : String) (tItems : List ScheduleItem)
    (records : List SubmissionRecord) : ℕ → List Goal → Option (List GoalProgress)
  | _, [] => some []
  | i, g :: gs =>
    let entry : Option (ℕ × Option String × Option String) :=
      match tItems[i]? with
      | some cur =>
        let st := cur.start_time.getD "00:00"
        let et := cur.end_time.getD "23:59"
        match strptimeYmdHM (date ++ " " ++ st), strptimeYmdHM (date ++ " " ++ et) with
        | some lo, some hi => some (windowAnswered lo hi g.type records, some st, some et)
        | _, _ => none
      | none => some (0, none, none)
    match entry with
    | none => none
    | some (ans, st, et) =>
      (dashGoalsProgress date tItems records (i + 1) gs).map
        (fun rest =>
          ⟨i, g.type, g.target_questions, ans, pct g.target_questions ans, st, et⟩ :: rest)

/-- The fallback `goals_progress` built when there is a plan but no usable
schedule: zero answered, zero percentage, no window. -/
def fallbackProgress : ℕ → List Goal → List GoalProgress
  | _, [] => []
  | i, g :: gs =>
    ⟨i, g.type, g.target_questions, 0, 0, none, none⟩ :: fallbackProgress (i + 1) gs

/-- One `get_dashboard_data` computation (steps 2–6; step 1 is the database
read captured by `s`).  `none` models an uncaught exception. -/
def getDashboardData (date : String) (s : TDState) : Option DashOut :=
  let totalAnswered := summaryTotal s.records
  match s.scheduleItems with
  | some items =>
    if s.goals ≠ [] ∧ items ≠ [] then
      let tItems := trainingItemsOf items
      match updateGoalsStep date s tItems 0 s.goals with
      | none => none
      | some goals1 =>
        let totalTarget := (goals1.map Goal.target_questions).sum
        match dashGoalsProgress date tItems (sortRecords s.records) 0 goals1 with
        | none => none
        | some gps =>
          let progressTotal :=
            (gps.map (fun gp => min gp.answered_questions gp.target_questions)).sum
          some ⟨totalAnswered, totalTarget, dayPct totalTarget progressTotal totalAnswered, gps⟩
    else if s.goals ≠ [] then
      let gps := fallbackProgress 0 s.goals
      let totalTarget := (s.goals.map Goal.target_questions).sum
      let progressTotal :=
        (gps.map (fun gp => min gp.answered_questions gp.target_questions)).sum
      some ⟨totalAnswered, totalTarget, dayPct totalTarget progressTotal totalAnswered, gps⟩
    else some ⟨totalAnswered, 0, dayPct 0 0 totalAnswered, []⟩
  | none =>
    if s.goals ≠ [] then
      let gps := fallbackProgress 0 s.goals
      let totalTarget := (s.goals.map Goal.target_questions).sum
      let progressTotal :=
        (gps.map (fun gp => min gp.answered_questions gp.target_questions)).sum
      some ⟨totalAnswered, totalTarget, dayPct totalTarget progressTotal totalAnswered, gps⟩
    else some ⟨totalAnswered, 0, dayPct 0 0 totalAnswered, []⟩


/-! ## Specification-level definitions

These follow the wording of the specification and are compared with the
code-level definitions above in the refinement theorems. -/

/-- Spec: `percentage = min(100, round(answered/target*100))` if `target>0`,
else `100` if `answered>0` else `0`. -/
def specPercentage (target answered : ℕ) : ℤ :=
  if 0 < target then min 100 (pyRound ((answered : ℚ) / (target : ℚ) * 100))
  else if 0 < answered then 100
  else 0

/-- Spec: `day_percentage = min(100, round(total_answered_capped/total_target*100))`
if `total_target>0` else `100` if `total_answered_raw>0` else `0`. -/
def specDayPercentage (totalTarget capped raw : ℕ) : ℤ :=
  if 0 < totalTarget then min 100 (pyRound ((capped : ℚ) / (totalTarget : ℚ) * 100))
  else if 0 < raw then 100
  else 0

/-- Spec: the review-window target is the plain sum of
`incorrect + unanswered` over the records whose normalized timestamp lies in
the half-open window and whose subject passes the filter. -/
def reviewWindowSum (lo hi : DT) (subjects : List String)
    (records : List SubmissionRecord) : ℕ :=
  (records.map (fun r =>
    match parseRecordTs r.submission_time with
    | some t =>
      if reviewInWindow lo hi t ∧ (subjects = [] ∨ r.practice_type ∈ subjects) then
        r.incorrect_answers + r.unanswered_questions
      else 0
    | none => 0)).sum

/-! ## Arithmetic helper lemmas -/

theorem pyRoundNat_eq_pyRound (n d : ℕ) (hd : 0 < d) :
    (pyRoundNat n d : ℤ) = pyRound ((n : ℚ) / (d : ℚ)) := by
  have hd0 : (0 : ℚ) < (d : ℚ) := by exact_mod_cast hd
  have hfl : ⌊(n : ℚ) / (d : ℚ)⌋ = ((n / d : ℕ) : ℤ) := by
    rw [Rat.floor_natCast_div_natCast]
    exact_mod_cast rfl
  have hfrac : (n : ℚ) / (d : ℚ) - ((n / d : ℕ) : ℚ) = ((n % d : ℕ) : ℚ) / (d : ℚ) := by
    have hmod : (n : ℚ) = (d : ℚ) * ((n / d : ℕ) : ℚ) + ((n % d : ℕ) : ℚ) := by
      exact_mod_cast (Nat.div_add_mod n d).symm
    field_simp
    linarith [hmod]
  have hq : (n : ℚ) / (d : ℚ) - ((⌊(n : ℚ) / (d : ℚ)⌋ : ℤ) : ℚ) =
      ((n % d : ℕ) : ℚ) / (d : ℚ) := by
    rw [hfl]; push_cast; push_cast at hfrac; exact hfrac
  have hlt : ((n % d : ℕ) : ℚ) / (d : ℚ) < 1 / 2 ↔ 2 * (n % d) < d := by
    rw [div_lt_div_iff₀ hd0 (by norm_num : (0 : ℚ) < 2), one_mul]
    rw [show ((n % d : ℕ) : ℚ) * 2 = ((2 * (n % d) : ℕ) : ℚ) by push_cast; ring]
    exact_mod_cast Iff.rfl
  have hgt : (1 : ℚ) / 2 < ((n % d : ℕ) : ℚ) / (d : ℚ) ↔ d < 2 * (n % d) := by
    rw [div_lt_div_iff₀ (by norm_num : (0 : ℚ) < 2) hd0, one_mul]
    rw [show ((n % d : ℕ) : ℚ) * 2 = ((2 * (n % d) : ℕ) : ℚ) by push_cast; ring]
    exact_mod_cast Iff.rfl
  have hpar : ((n / d : ℕ) : ℤ) % 2 = 0 ↔ (n / d) % 2 = 0 := by omega
  unfold pyRound pyRoundNat
  rcases lt_trichotomy (2 * (n % d)) d with h | h | h
  · rw [if_pos h, if_pos (hq ▸ hlt.mpr h), hfl]
  · have h1 : ¬ 2 * (n % d) < d := by omega
    have h2 : ¬ d < 2 * (n % d) := by omega
    have q1 : ¬ (n : ℚ) / (d : ℚ) - ((⌊(n : ℚ) / (d : ℚ)⌋ : ℤ) : ℚ) < 1 / 2 := by
      rw [hq]; rw [hlt]; exact h1
    have q2 : ¬ (1 : ℚ) / 2 < (n : ℚ) / (d : ℚ) - ((⌊(n : ℚ) / (d : ℚ)⌋ : ℤ) : ℚ) := by
      rw [hq]; rw [hgt]; exact h2
    rw [if_neg h1, if_neg h2, if_neg q1, if_neg q2, hfl]
    by_cases hp : (n / d) % 2 = 0
    · rw [if_pos hp, if_pos (hpar.mpr hp)]
    · rw [if_neg hp, if_neg (fun c => hp (hpar.mp c))]
      push_cast; ring
  · have h1 : ¬ 2 * (n % d) < d := by omega
    have q1 : ¬ (n : ℚ) / (d : ℚ) - ((⌊(n : ℚ) / (d : ℚ)⌋ : ℤ) : ℚ) < 1 / 2 := by
      rw [hq]; rw [hlt]; exact h1
    rw [if_neg h1, if_pos h, if_neg q1, if_pos (hq ▸ hgt.mpr h), hfl]
    push_cast; ring

theorem pct_cast (t a : ℕ) : (pct t a : ℤ) = specPercentage t a := by
  unfold pct specPercentage
  split_ifs with h1 h2
  · rw [show (a : ℚ) / (t : ℚ) * 100 = ((100 * a : ℕ) : ℚ) / (t : ℚ) by push_cast; ring]
    rw [← pyRoundNat_eq_pyRound _ _ h1]
    push_cast [Nat.cast_min]
    rfl
  · rfl
  · rfl

theorem dayPct_cast (tt p raw : ℕ) :
    (dayPct tt p raw : ℤ) = specDayPercentage tt p raw := by
  unfold dayPct specDayPercentage
  split_ifs with h1 h2
  · rw [show (p : ℚ) / (tt : ℚ) * 100 = ((100 * p : ℕ) : ℚ) / (tt : ℚ) by push_cast; ring]
    rw [← pyRoundNat_eq_pyRound _ _ h1]
    push_cast [Nat.cast_min]
    rfl
  · rfl
  · rfl

theorem pct_le_100 (t a : ℕ) : pct t a ≤ 100 := by
  unfold pct
  split_ifs with h1 h2
  · exact min_le_left _ _
  · exact le_refl 100
  · exact Nat.zero_le 100

/-! ## Order lemmas for the sort relation -/

theorem chLe_total : ∀ a b : List Char, chLe a b = true ∨ chLe b a = true := by
  intro a
  induction a with
  | nil => intro b; left; rfl
  | cons x xs ih =>
    intro b
    cases b with
    | nil => right; rfl
    | cons y ys =>
      by_cases hxy : x.toNat < y.toNat
      · left; simp [chLe, hxy]
      · by_cases hyx : y.toNat < x.toNat
        · right; simp [chLe, hyx]
        · rcases ih ys with h | h
          · left; simp [chLe, hxy, hyx, h]
          · right; simp [chLe, hxy, hyx, h]

theorem chLe_trans :
    ∀ a b c : List Char, chLe a b = true → chLe b c = true → chLe a c = true := by
  intro a
  induction a with
  | nil => intro b c _ _; rfl
  | cons x xs ih =>
    intro b c hab hbc
    cases b with
    | nil => simp [chLe] at hab
    | cons y ys =>
      cases c with
      | nil => simp [chLe] at hbc
      | cons z zs =>
        simp only [chLe] at hab hbc ⊢
        by_cases hxy : x.toNat < y.toNat
        · by_cases hyz : y.toNat < z.toNat
          · have : x.toNat < z.toNat := lt_trans hxy hyz
            simp [this]
          · by_cases hzy : z.toNat < y.toNat
            · simp [hyz, hzy] at hbc
            · have hyez : y.toNat = z.toNat := by omega
              have : x.toNat < z.toNat := hyez ▸ hxy
              simp [this]
        · by_cases hyx : y.toNat < x.toNat
          · simp [hxy, hyx] at hab
          · have hxey : x.toNat = y.toNat := by omega
            by_cases hyz : y.toNat < z.toNat
            · have : x.toNat < z.toNat := hxey ▸ hyz
              simp [this]
            · by_cases hzy : z.toNat < y.toNat
              · simp [hyz, hzy] at hbc
              · have hyez : y.toNat = z.toNat := by omega
                have hxz : ¬ x.toNat < z.toNat := by omega
                have hzx : ¬ z.toNat < x.toNat := by omega
                simp only [hxy, hyx, hyz, hzy, if_neg, ite_false] at hab hbc
                simp [hxz, hzx]
                exact ih ys zs (by simpa using hab) (by simpa using hbc)

theorem strLe_total (a b : String) : strLe a b = true ∨ strLe b a = true :=
  chLe_total a.data b.data

theorem strLe_trans (a b c : String) :
    strLe a b = true → strLe b c = true → strLe a c = true :=
  chLe_trans a.data b.data c.data

/-! ## Claim C3 — per-goal percentage formula and bounds -/

/-- C3: for every goal, the reported progress percentage equals
`min(100, round(answered/target*100))` when `target > 0`, `100` when
`target = 0` and `answered > 0`, and `0` otherwise (this is
`specPercentage`); consequently it always lies between 0 and 100, even when
`answered > target`. -/
theorem percentage_formula_and_bounds :
    ∀ target answered : ℕ,
      (pct target answered : ℤ) = specPercentage target answered ∧
      0 ≤ specPercentage target answered ∧ specPercentage target answered ≤ 100 := by
  intro t a
  refine ⟨pct_cast t a, ?_, ?_⟩
  · rw [← pct_cast t a]; exact_mod_cast Nat.zero_le _
  · rw [← pct_cast t a]; exact_mod_cast pct_le_100 t a

/-! ## Claim C6 — the training-item filter -/

/-- C6 counterexample: the source filter only consults the `activity`
field.  This schedule item (taken from the repository's own default
schedule) has a training keyword in `details` but none in `activity`, and
is excluded from `training_items`, contradicting the claim that an item
whose details text contains a training keyword is included. -/
theorem training_filter_ignores_details_cex :
    trainingItemsOf
        [⟨some "14:30", some "16:00", some "特殊-特殊", some "自主安排学习"⟩] = [] ∧
    detailsHasTrainingKeyword
        ⟨some "14:30", some "16:00", some "特殊-特殊", some "自主安排学习"⟩ = true := by
  exact ⟨by decide, by decide⟩

/-- C6 amended: `training_items` consists exactly of the schedule items,
sorted ascending (stably) by `start_time`, whose `activity` field contains a
training keyword; the `details` field is never consulted by this filter. -/
theorem training_items_sorted_activity_filter :
    ∀ items : List ScheduleItem,
      List.Sorted (fun a b => strLe (itemKey a) (itemKey b) = true) (trainingItemsOf items) ∧
      ∀ it : ScheduleItem,
        (trainingItemsOf items).count it = (items.filter isTrainingItem).count it := by
  intro items
  haveI : IsTotal ScheduleItem (fun a b => strLe (itemKey a) (itemKey b) = true) :=
    ⟨fun a b => strLe_total (itemKey a) (itemKey b)⟩
  haveI : IsTrans ScheduleItem (fun a b => strLe (itemKey a) (itemKey b) = true) :=
    ⟨fun a b c => strLe_trans (itemKey a) (itemKey b) (itemKey c)⟩
  constructor
  · exact (List.sorted_insertionSort _ items).filter isTrainingItem
  · intro it
    have hperm : List.Perm (trainingItemsOf items) (items.filter isTrainingItem) :=
      (List.perm_insertionSort _ items).filter isTrainingItem
    exact hperm.count_eq it

/-! ## Claim C8 — timestamp normalization and fallback -/

theorem windowAnswered_skips_unparsable (lo hi : DT) (p : String) :
    ∀ rs : List SubmissionRecord,
      windowAnswered lo hi p rs =
        windowAnswered lo hi p
          (rs.filter (fun r => (parseRecordTs r.submission_time).isSome)) := by
  intro rs
  induction rs with
  | nil => rfl
  | cons r rs ih =>
    cases hp : parseRecordTs r.submission_time with
    | none => simp [windowAnswered, List.filter_cons, hp, ← ih]
    | some t => simp [windowAnswered, List.filter_cons, hp, ← ih]

theorem reviewTargetLoop_skips_unparsable (lo hi : DT) (subj : List String) :
    ∀ (rs : List SubmissionRecord) (processed : List ℕ) (acc : ℕ),
      reviewTargetLoop lo hi subj rs processed acc =
        reviewTargetLoop lo hi subj
          (rs.filter (fun r => (parseRecordTs r.submission_time).isSome))
          processed acc := by
  intro rs
  induction rs with
  | nil => intro processed acc; rfl
  | cons r rs ih =>
    intro processed acc
    cases hp : parseRecordTs r.submission_time with
    | none =>
      by_cases hid : r.id ∈ processed <;>
        simp [reviewTargetLoop, List.filter_cons, hp, hid, ih]
    | some t =>
      by_cases hid : r.id ∈ processed
      · simp [reviewTargetLoop, List.filter_cons, hp, hid, ih]
      · by_cases hw : reviewInWindow lo hi t = true
        · by_cases hs : subj = [] ∨ r.practice_type ∈ subj <;>
            simp [reviewTargetLoop, List.filter_cons, hp, hid, hw, hs, ih]
        · simp [reviewTargetLoop, List.filter_cons, hp, hid, hw, ih]

/-- C8: a record's `submission_time` is normalized by replacing `'.'` with
`'-'`, parsed first with seconds and then without; `"2025.09.12 20:49"`
normalizes to `2025-09-12 20:49:00` and is attributed to a matching-category
goal whose window is 20:00–21:00 on 2025-09-12; and a record that fails all
formats contributes to no sum (removing unparsable records changes neither
the ordinary-window attribution nor the review-target loop). -/
theorem timestamp_normalization_and_skip :
    normalizeTs "2025.09.12 20:49" = "2025-09-12 20:49" ∧
    parseRecordTs "2025.09.12 20:49" = some ⟨2025, 9, 12, 20, 49, 0⟩ ∧
    (getTrainingDetails "2025-09-12" 0
      { goals := [⟨"数量关系", 40, none, none⟩],
        scheduleItems := some
          [⟨some "20:00", some "21:00", some "数量关系-数量", some ""⟩],
        records := [⟨1, "数量关系", "2025.09.12 20:49", 30, 2, 1⟩] }).map
      (fun p => p.1.answered_questions) = some 30 ∧
    (∀ (lo hi : DT) (p : String) (rs : List SubmissionRecord),
      windowAnswered lo hi p rs =
        windowAnswered lo hi p
          (rs.filter (fun r => (parseRecordTs r.submission_time).isSome))) ∧
    (∀ (lo hi : DT) (subj : List String) (rs : List SubmissionRecord)
        (processed : List ℕ) (acc : ℕ),
      reviewTargetLoop lo hi subj rs processed acc =
        reviewTargetLoop lo hi subj
          (rs.filter (fun r => (parseRecordTs r.submission_time).isSome))
          processed acc) :=
  ⟨by decide, by decide, by decide,
   windowAnswered_skips_unparsable, reviewTargetLoop_skips_unparsable⟩

/-! ## Claim C9 — review goal without an aligned schedule item -/

/-- C9 counterexample: a review goal with no prior review goal and no
aligned training schedule item keeps its stored `target_questions` (here 7);
the target is not reset to 0 as claimed. -/
theorem unaligned_review_default_cex :
    (getTrainingDetails "2025-09-12" 0
      { goals := [⟨"错题复盘", 7, none, none⟩],
        scheduleItems := some [],
        records := [] }).map (fun p => p.1.goal.target_questions) = some 7 ∧
    (7 : ℕ) ≠ 0 :=
  ⟨by decide, by decide⟩

/-- C9 amended: for a review-type goal with no aligned training schedule
item (no usable schedule, or goal index out of range of `training_items`),
the dynamic recalculation is skipped: the goal is returned with its
*stored* `target_questions` unchanged, the answered count is 0, and no
error occurs. -/
theorem unaligned_review_keeps_target (date : String) (gid : ℕ) (s : TDState)
    (g : Goal) (hg : s.goals[gid]? = some g) (_hrev : isReviewGoal g = true)
    (hna : s.scheduleItems = none ∨
      ∃ items, s.scheduleItems = some items ∧ (trainingItemsOf items)[gid]? = none) :
    getTrainingDetails date gid s =
      some (⟨g, 0, pct g.target_questions 0⟩,
            { s with scheduleItems := s.scheduleItems.map sortScheduleItems }) := by
  have hrecalc : recalcReviewGoal date gid s g = some g := by
    rcases hna with hn | ⟨items, hi, hni⟩
    · simp [recalcReviewGoal, hn]
    · by_cases he : items = []
      · subst he; simp [recalcReviewGoal, hi]
      · simp [recalcReviewGoal, hi, hni, he]
  have hans : detailsAnswered date gid s g.type = some 0 := by
    rcases hna with hn | ⟨items, hi, hni⟩
    · simp [detailsAnswered, hn]
    · by_cases he : items = []
      · subst he; simp [detailsAnswered, hi]
      · simp [detailsAnswered, hi, hni, he]
  simp [getTrainingDetails, hg, hrecalc, hans]

/-- C9 amended, witness. -/
theorem unaligned_review_keeps_target_witness :
    getTrainingDetails "2025-09-12" 0
      { goals := [⟨"错题复盘", 7, none, none⟩],
        scheduleItems := none,
        records := [⟨1, "数量关系", "2025-09-12 09:00:00", 10, 2, 1⟩] } =
      some (⟨⟨"错题复盘", 7, none, none⟩, 0, pct 7 0⟩,
            { goals := [⟨"错题复盘", 7, none, none⟩],
              scheduleItems := none,
              records := [⟨1, "数量关系", "2025-09-12 09:00:00", 10, 2, 1⟩] }) :=
  unaligned_review_keeps_target "2025-09-12" 0 _ _ (by decide) (by decide)
    (Or.inl rfl)

/-! ## Claim C10 — frame: the stored plan and records are not mutated -/

theorem recalcReviewGoal_fields (date : String) (gid : ℕ) (s : TDState)
    (goal0 g1 : Goal) (h : recalcReviewGoal date gid s goal0 = some g1) :
    g1.type = goal0.type ∧ g1.target_accuracy = goal0.target_accuracy ∧
      g1.target_time_minutes = goal0.target_time_minutes := by
  unfold recalcReviewGoal at h
  split at h
  · cases h; exact ⟨rfl, rfl, rfl⟩
  · split at h
    · dsimp only at h
      split at h
      · cases h; exact ⟨rfl, rfl, rfl⟩
      · split at h
        · cases h; exact ⟨rfl, rfl, rfl⟩
        · cases h
    · cases h; exact ⟨rfl, rfl, rfl⟩

/-- C10: a successful single-goal computation leaves the stored goal list
and the records untouched (only the schedule items are re-sorted in place);
the recomputed target lives only in the fresh copy of the goal carried by
the result, which agrees with the stored goal on every other field. -/
theorem details_frame_preservation (date : String) (gid : ℕ) (s : TDState)
    (out : TDOut) (s' : TDState)
    (h : getTrainingDetails date gid s = some (out, s')) :
    s'.goals = s.goals ∧ s'.records = s.records ∧
    ∀ g, s.goals[gid]? = some g →
      out.goal.type = g.type ∧ out.goal.target_accuracy = g.target_accuracy ∧
        out.goal.target_time_minutes = g.target_time_minutes := by
  unfold getTrainingDetails at h
  split at h
  · cases h
  · rename_i goal0 hg0
    split at h
    · cases h
    · rename_i goal1 hrec
      split at h
      · cases h
      · rename_i answered hans
        cases h
        refine ⟨rfl, rfl, ?_⟩
        intro g hgg
        rw [hg0] at hgg
        injection hgg with he
        subst he
        exact recalcReviewGoal_fields date gid s _ _ hrec

/-- C10 witness. -/
theorem details_frame_preservation_witness :
    ({ goals := [⟨"错题复盘", 5, some 75, some 60⟩],
       scheduleItems := some
         [⟨some "10:00", some "11:00", some "错题复盘-复盘", some ""⟩],
       records := [⟨1, "数量关系", "2025-09-12 09:30:00", 20, 3, 2⟩] } : TDState).goals =
      ({ goals := [⟨"错题复盘", 5, some 75, some 60⟩],
         scheduleItems := some
           [⟨some "10:00", some "11:00", some "错题复盘-复盘", some ""⟩],
         records := [⟨1, "数量关系", "2025-09-12 09:30:00", 20, 3, 2⟩] } : TDState).goals ∧
    (⟨⟨"错题复盘", 5, some 75, some 60⟩, 0, 0⟩ : TDOut).goal.type = "错题复盘" := by
  have hfp := details_frame_preservation "2025-09-12" 0
    { goals := [⟨"错题复盘", 5, some 75, some 60⟩],
      scheduleItems := some
        [⟨some "10:00", some "11:00", some "错题复盘-复盘", some ""⟩],
      records := [⟨1, "数量关系", "2025-09-12 09:30:00", 20, 3, 2⟩] }
    ⟨⟨"错题复盘", 5, some 75, some 60⟩, 0, 0⟩
    { goals := [⟨"错题复盘", 5, some 75, some 60⟩],
      scheduleItems := some
        [⟨some "10:00", some "11:00", some "错题复盘-复盘", some ""⟩],
      records := [⟨1, "数量关系", "2025-09-12 09:30:00", 20, 3, 2⟩] }
    (by decide)
  exact ⟨hfp.1, (hfp.2.2 ⟨"错题复盘", 5, some 75, some 60⟩ (by decide)).1⟩

/-! ## Claim C2 — the per-day dedup invariant (code bug) -/

/-- C2 failing input: the `processed_record_ids` set is created afresh by
every `get_training_details` call, and each call computes exactly one goal,
so it cannot deduplicate across the review goals of a day (despite the
source comments saying it marks records "as processed for subsequent review
goals on the same day").  With a first review item whose `end_time` (08:00)
precedes its `start_time` (10:00), the two review windows
`[00:00, 10:00)` and `[08:00, 12:00)` overlap, and the single record
(incorrect = 3, at 09:00) is counted in **both** goals' targets: each target
is 3, although the day holds only 3 incorrect+unanswered questions. -/
theorem review_dedup_double_count :
    (getTrainingDetails "2025-09-12" 0
      { goals := [⟨"错题复盘", 0, none, none⟩, ⟨"错题复盘", 0, none, none⟩],
        scheduleItems := some
          [⟨some "10:00", some "08:00", some "错题复盘-复盘", some ""⟩,
           ⟨some "12:00", some "13:00", some "错题复盘-复盘", some ""⟩],
        records := [⟨1, "数量关系", "2025-09-12 09:00:00", 0, 3, 0⟩] }).map
      (fun p => p.1.goal.target_questions) = some 3 ∧
    (getTrainingDetails "2025-09-12" 1
      { goals := [⟨"错题复盘", 0, none, none⟩, ⟨"错题复盘", 0, none, none⟩],
        scheduleItems := some
          [⟨some "10:00", some "08:00", some "错题复盘-复盘", some ""⟩,
           ⟨some "12:00", some "13:00", some "错题复盘-复盘", some ""⟩],
        records := [⟨1, "数量关系", "2025-09-12 09:00:00", 0, 3, 0⟩] }).map
      (fun p => p.1.goal.target_questions) = some 3 ∧
    ([⟨1, "数量关系", "2025-09-12 09:00:00", 0, 3, 0⟩].map
      (fun r : SubmissionRecord => r.incorrect_answers + r.unanswered_questions)).sum = 3 :=
  ⟨by decide, by decide, by decide⟩

/-! ## Claim C5 — window boundary semantics -/

/-- C5 counterexample: the claim says every ordinary goal window is closed
with its end bound extended to second :59 of the end minute; but
`get_dashboard_data` (one of the claim's two code sites) parses the end
bound with `'%Y-%m-%d %H:%M'`, i.e. at second :00.  A record at 21:00:30
with window 20:00–21:00 is excluded by the dashboard computation (answered
= 0) although the same record is included by the `get_training_details`
computation (answered = 5). -/
theorem ordinary_window_boundary_cex :
    (getDashboardData "2025-09-12"
      { goals := [⟨"资料分析", 10, none, none⟩],
        scheduleItems := some
          [⟨some "20:00", some "21:00", some "资料分析-资料", some ""⟩],
        records := [⟨1, "资料分析", "2025-09-12 21:00:30", 5, 0, 0⟩] }).map
      (fun o => o.goals_progress.map GoalProgress.answered_questions) = some [0] ∧
    (getTrainingDetails "2025-09-12" 0
      { goals := [⟨"资料分析", 10, none, none⟩],
        scheduleItems := some
          [⟨some "20:00", some "21:00", some "资料分析-资料", some ""⟩],
        records := [⟨1, "资料分析", "2025-09-12 21:00:30", 5, 0, 0⟩] }).map
      (fun p => p.1.answered_questions) = some 5 :=
  ⟨by decide, by decide⟩

/-- C5 amended: review windows are half-open (`[prev_end, cur_start)` — a
record at exactly the previous review end is included when the window is
non-empty, a record at exactly the current review start is excluded), and
ordinary windows are closed on both ends; the :59 end-extension holds in
the single-goal `get_training_details` computation, while the
`get_dashboard_data` computation bounds the window at second :00 of the end
minute.  The fourth conjunct shows both review boundaries through the full
pipeline (only the record at exactly the previous end counts); the last two
show the :59 difference on a record at exactly 21:00:59. -/
theorem window_boundaries_amended :
    (∀ lo hi : DT, lo.key < hi.key → reviewInWindow lo hi lo = true) ∧
    (∀ lo hi : DT, reviewInWindow lo hi hi = false) ∧
    (∀ lo hi t : DT, ordInWindow lo hi t = true ↔ lo.key ≤ t.key ∧ t.key ≤ hi.key) ∧
    (getTrainingDetails "2025-09-12" 1
      { goals := [⟨"错题复盘", 0, none, none⟩, ⟨"错题复盘", 0, none, none⟩],
        scheduleItems := some
          [⟨some "09:00", some "10:00", some "错题复盘-复盘", some ""⟩,
           ⟨some "12:00", some "13:00", some "错题复盘-复盘", some ""⟩],
        records := [⟨1, "数量关系", "2025-09-12 10:00:00", 0, 3, 0⟩,
                    ⟨2, "数量关系", "2025-09-12 12:00:00", 0, 5, 0⟩] }).map
      (fun p => p.1.goal.target_questions) = some 3 ∧
    (getTrainingDetails "2025-09-12" 0
      { goals := [⟨"资料分析", 10, none, none⟩],
        scheduleItems := some
          [⟨some "20:00", some "21:00", some "资料分析-资料", some ""⟩],
        records := [⟨1, "资料分析", "2025-09-12 21:00:59", 5, 0, 0⟩] }).map
      (fun p => p.1.answered_questions) = some 5 ∧
    (getDashboardData "2025-09-12"
      { goals := [⟨"资料分析", 10, none, none⟩],
        scheduleItems := some
          [⟨some "20:00", some "21:00", some "资料分析-资料", some ""⟩],
        records := [⟨1, "资料分析", "2025-09-12 21:00:59", 5, 0, 0⟩] }).map
      (fun o => o.goals_progress.map GoalProgress.answered_questions) = some [0] := by
  refine ⟨?_, ?_, ?_, by decide, by decide, by decide⟩
  · intro lo hi h
    simp [reviewInWindow, h]
  · intro lo hi
    simp [reviewInWindow]
  · intro lo hi t
    simp [ordInWindow]

/-- C5 amended, witness. -/
theorem window_boundaries_amended_witness :
    reviewInWindow ⟨2025, 9, 12, 10, 0, 0⟩ ⟨2025, 9, 12, 12, 0, 0⟩
      ⟨2025, 9, 12, 10, 0, 0⟩ = true ∧
    reviewInWindow ⟨2025, 9, 12, 10, 0, 0⟩ ⟨2025, 9, 12, 12, 0, 0⟩
      ⟨2025, 9, 12, 12, 0, 0⟩ = false ∧
    ordInWindow ⟨2025, 9, 12, 10, 0, 0⟩ ⟨2025, 9, 12, 12, 0, 0⟩
      ⟨2025, 9, 12, 12, 0, 0⟩ = true :=
  ⟨window_boundaries_amended.1 _ _ (by decide),
   window_boundaries_amended.2.1 _ _,
   (window_boundaries_amended.2.2.1 _ _ _).mpr (by decide)⟩

/-! ## Claim C7 — malformed versus missing time strings -/

/-- C7 counterexample: a schedule item whose `start_time` is present but
malformed (`"9am"`) is *not* recovered with a default window: the
`strptime` calls in both window computations raise, and the error escapes
the computation (modelled by `none`), contradicting the claim that the
malformation is caught and never propagated to the caller. -/
theorem malformed_time_propagates_cex :
    getTrainingDetails "2025-09-12" 0
      { goals := [⟨"资料分析", 10, none, none⟩],
        scheduleItems := some
          [⟨some "9am", some "10:00", some "资料分析-资料", some ""⟩],
        records := [] } = none ∧
    getDashboardData "2025-09-12"
      { goals := [⟨"资料分析", 10, none, none⟩],
        scheduleItems := some
          [⟨some "9am", some "10:00", some "资料分析-资料", some ""⟩],
        records := [] } = none :=
  ⟨by decide, by decide⟩

/-- C7 amended: the 00:00–23:59 full-day default window applies only when
the `start_time` / `end_time` *keys are missing* (dict `.get` defaults): a
non-review goal aligned with an item having neither key is computed over
the window `[date 00:00:00, date 23:59:59]` and no error occurs.  (A
malformed present string, by contrast, is propagated as a fatal error —
see the counterexample.) -/
theorem missing_time_defaults (date : String) (gid : ℕ) (s : TDState)
    (g : Goal) (items : List ScheduleItem) (act det : Option String) (lo hi : DT)
    (hg : s.goals[gid]? = some g) (hrev : isReviewGoal g = false)
    (hsch : s.scheduleItems = some items)
    (hcur : (trainingItemsOf items)[gid]? = some ⟨none, none, act, det⟩)
    (hlo : strptimeYmdHMS (date ++ " " ++ "00:00" ++ ":00") = some lo)
    (hhi : strptimeYmdHMS (date ++ " " ++ "23:59" ++ ":59") = some hi) :
    getTrainingDetails date gid s =
      some (⟨g, windowAnswered lo hi g.type (sortRecords s.records),
             pct g.target_questions (windowAnswered lo hi g.type (sortRecords s.records))⟩,
            { s with scheduleItems := s.scheduleItems.map sortScheduleItems }) := by
  have hne : items ≠ [] := by
    intro e
    subst e
    simp [trainingItemsOf, sortScheduleItems] at hcur
  have hrecalc : recalcReviewGoal date gid s g = some g := by
    simp [recalcReviewGoal, hsch, hrev]
  have hans : detailsAnswered date gid s g.type =
      some (windowAnswered lo hi g.type (sortRecords s.records)) := by
    simp [detailsAnswered, hsch, hne, hcur, hlo, hhi]
  simp [getTrainingDetails, hg, hrecalc, hans]

/-- C7 amended, witness. -/
theorem missing_time_defaults_witness :
    getTrainingDetails "2025-09-12" 0
      { goals := [⟨"资料分析", 10, none, none⟩],
        scheduleItems := some [⟨none, none, some "资料分析-资料", some ""⟩],
        records := [⟨1, "资料分析", "2025-09-12 12:00:00", 8, 0, 0⟩] } =
      some (⟨⟨"资料分析", 10, none, none⟩,
             windowAnswered ⟨2025, 9, 12, 0, 0, 0⟩ ⟨2025, 9, 12, 23, 59, 59⟩
               "资料分析"
               (sortRecords [⟨1, "资料分析", "2025-09-12 12:00:00", 8, 0, 0⟩]),
             pct 10
               (windowAnswered ⟨2025, 9, 12, 0, 0, 0⟩ ⟨2025, 9, 12, 23, 59, 59⟩
                 "资料分析"
                 (sortRecords [⟨1, "资料分析", "2025-09-12 12:00:00", 8, 0, 0⟩]))⟩,
            { goals := [⟨"资料分析", 10, none, none⟩],
              scheduleItems :=
                (some [⟨none, none, some "资料分析-资料", some ""⟩]).map sortScheduleItems,
              records := [⟨1, "资料分析", "2025-09-12 12:00:00", 8, 0, 0⟩] }) :=
  missing_time_defaults "2025-09-12" 0
    { goals := [⟨"资料分析", 10, none, none⟩],
      scheduleItems := some [⟨none, none, some "资料分析-资料", some ""⟩],
      records := [⟨1, "资料分析", "2025-09-12 12:00:00", 8, 0, 0⟩] }
    ⟨"资料分析", 10, none, none⟩
    [⟨none, none, some "资料分析-资料", some ""⟩]
    (some "资料分析-资料") (some "")
    ⟨2025, 9, 12, 0, 0, 0⟩ ⟨2025, 9, 12, 23, 59, 59⟩
    (by decide) (by decide) rfl (by decide) (by decide) (by decide)

/-! ## Claim C1 — review-window target equals the window sum -/

theorem reviewTargetLoop_eq_sum (lo hi : DT) (subj : List String) :
    ∀ (rs : List SubmissionRecord) (processed : List ℕ) (acc : ℕ),
      (rs.map SubmissionRecord.id).Nodup →
      (∀ r ∈ rs, r.id ∉ processed) →
      reviewTargetLoop lo hi subj rs processed acc =
        acc + reviewWindowSum lo hi subj rs := by
  intro rs
  induction rs with
  | nil =>
    intro processed acc _ _
    simp [reviewTargetLoop, reviewWindowSum]
  | cons r rs ih =>
    intro processed acc hnd hdisj
    have hid : r.id ∉ processed := hdisj r (List.mem_cons_self r rs)
    have hnotin : r.id ∉ rs.map SubmissionRecord.id :=
      (List.nodup_cons.mp hnd).1
    have hnd' : (rs.map SubmissionRecord.id).Nodup :=
      (List.nodup_cons.mp hnd).2
    have hdisj' : ∀ x ∈ rs, x.id ∉ processed :=
      fun x hx => hdisj x (List.mem_cons_of_mem r hx)
    cases hp : parseRecordTs r.submission_time with
    | none =>
      simp only [reviewTargetLoop, if_neg hid, hp]
      rw [ih processed acc hnd' hdisj']
      simp [reviewWindowSum, hp]
    | some t =>
      by_cases hw : reviewInWindow lo hi t = true
      · by_cases hs : subj = [] ∨ r.practice_type ∈ subj
        · have hdisj2 : ∀ x ∈ rs, x.id ∉ r.id :: processed := by
            intro x hx
            simp only [List.mem_cons, not_or]
            refine ⟨?_, hdisj' x hx⟩
            intro he
            exact hnotin (he ▸ List.mem_map_of_mem SubmissionRecord.id hx)
          simp only [reviewTargetLoop, if_neg hid, hp, if_pos hw, if_pos hs]
          rw [ih (r.id :: processed) _ hnd' hdisj2]
          simp only [reviewWindowSum, List.map_cons, List.sum_cons, hp, hw, hs]
          simp [reviewWindowSum]
          omega
        · simp only [reviewTargetLoop, if_neg hid, hp, if_pos hw, if_neg hs]
          rw [ih processed acc hnd' hdisj']
          simp [reviewWindowSum, hp, hw, hs]
      · simp only [reviewTargetLoop, if_neg hid, hp, if_neg hw]
        rw [ih processed acc hnd' hdisj']
        simp [reviewWindowSum, hp, hw]

theorem reviewWindowSum_perm (lo hi : DT) (subj : List String)
    {rs rs' : List SubmissionRecord} (h : List.Perm rs rs') :
    reviewWindowSum lo hi subj rs = reviewWindowSum lo hi subj rs' :=
  (h.map _).sum_eq

/-- C1: for a review-type goal with an aligned training schedule item (and
well-formed window boundary strings, and pairwise-distinct record ids as the
data model guarantees), the single-goal computation succeeds and returns the
goal with `target_questions` equal to the sum of
`incorrect_answers + unanswered_questions` over the day's records whose
normalized timestamp lies in `[prev_review_end, current_review_start)` and
whose `practice_type` passes the subject filter derived from the item's
details text — in particular 0 when no such record exists. -/
theorem review_target_eq_window_sum (date : String) (gid : ℕ) (s : TDState)
    (items : List ScheduleItem) (cur : ScheduleItem) (g : Goal)
    (lo hi plo phi : DT)
    (hg : s.goals[gid]? = some g)
    (hrev : isReviewGoal g = true)
    (hsch : s.scheduleItems = some items)
    (hcur : (trainingItemsOf items)[gid]? = some cur)
    (hlo : strptimeYmdHMS (lastReviewEndStr date s.goals (trainingItemsOf items) gid) =
      some lo)
    (hhi : strptimeYmdHMS (date ++ " " ++ cur.start_time.getD "23:59" ++ ":00") =
      some hi)
    (hplo : strptimeYmdHMS (date ++ " " ++ cur.start_time.getD "00:00" ++ ":00") =
      some plo)
    (hphi : strptimeYmdHMS (date ++ " " ++ cur.end_time.getD "23:59" ++ ":59") =
      some phi)
    (hids : (s.records.map SubmissionRecord.id).Nodup) :
    getTrainingDetails date gid s =
      some (⟨{ g with target_questions :=
                 (reviewWindowSum lo hi (subjectsToReview (cur.details.getD ""))
                   s.records) },
             windowAnswered plo phi g.type (sortRecords s.records),
             pct (reviewWindowSum lo hi (subjectsToReview (cur.details.getD ""))
                   s.records)
                 (windowAnswered plo phi g.type (sortRecords s.records))⟩,
            { s with scheduleItems := s.scheduleItems.map sortScheduleItems }) := by
  have hne : items ≠ [] := by
    intro e
    subst e
    simp [trainingItemsOf, sortScheduleItems] at hcur
  have hsortperm : List.Perm (sortRecords s.records) s.records :=
    List.perm_insertionSort _ _
  have hids' : ((sortRecords s.records).map SubmissionRecord.id).Nodup :=
    ((hsortperm.map SubmissionRecord.id).nodup_iff).mpr hids
  have hsum : reviewTargetLoop lo hi (subjectsToReview (cur.details.getD ""))
      (sortRecords s.records) [] 0 =
      reviewWindowSum lo hi (subjectsToReview (cur.details.getD "")) s.records := by
    rw [reviewTargetLoop_eq_sum lo hi _ _ [] 0 hids' (by simp)]
    rw [Nat.zero_add]
    exact reviewWindowSum_perm lo hi _ hsortperm
  have hrecalc : recalcReviewGoal date gid s g =
      some { g with target_questions :=
               (reviewWindowSum lo hi (subjectsToReview (cur.details.getD ""))
                 s.records) } := by
    simp [recalcReviewGoal, hsch, hrev, hne, hcur, hlo, hhi, hsum]
  have hans : detailsAnswered date gid s g.type =
      some (windowAnswered plo phi g.type (sortRecords s.records)) := by
    simp [detailsAnswered, hsch, hne, hcur, hplo, hphi]
  simp [getTrainingDetails, hg, hrecalc, hans]

/-- C1 witness. -/
theorem review_target_eq_window_sum_witness :
    getTrainingDetails "2025-09-12" 0
      { goals := [⟨"错题复盘", 5, none, none⟩],
        scheduleItems := some
          [⟨some "10:00", some "11:00", some "错题复盘-复盘", some "数量"⟩],
        records := [⟨1, "数量关系", "2025-09-12 09:30:00", 20, 3, 2⟩] } =
      some (⟨{ (⟨"错题复盘", 5, none, none⟩ : Goal) with target_questions :=
                 (reviewWindowSum ⟨2025, 9, 12, 0, 0, 0⟩ ⟨2025, 9, 12, 10, 0, 0⟩
                   (subjectsToReview
                     ((⟨some "10:00", some "11:00", some "错题复盘-复盘",
                        some "数量"⟩ : ScheduleItem).details.getD ""))
                   [⟨1, "数量关系", "2025-09-12 09:30:00", 20, 3, 2⟩]) },
             windowAnswered ⟨2025, 9, 12, 10, 0, 0⟩ ⟨2025, 9, 12, 11, 0, 59⟩
               "错题复盘"
               (sortRecords [⟨1, "数量关系", "2025-09-12 09:30:00", 20, 3, 2⟩]),
             pct (reviewWindowSum ⟨2025, 9, 12, 0, 0, 0⟩ ⟨2025, 9, 12, 10, 0, 0⟩
                   (subjectsToReview
                     ((⟨some "10:00", some "11:00", some "错题复盘-复盘",
                        some "数量"⟩ : ScheduleItem).details.getD ""))
                   [⟨1, "数量关系", "2025-09-12 09:30:00", 20, 3, 2⟩])
                 (windowAnswered ⟨2025, 9, 12, 10, 0, 0⟩ ⟨2025, 9, 12, 11, 0, 59⟩
                   "错题复盘"
                   (sortRecords [⟨1, "数量关系", "2025-09-12 09:30:00", 20, 3, 2⟩]))⟩,
            { goals := [⟨"错题复盘", 5, none, none⟩],
              scheduleItems :=
                (some [⟨some "10:00", some "11:00", some "错题复盘-复盘",
                        some "数量"⟩]).map sortScheduleItems,
              records := [⟨1, "数量关系", "2025-09-12 09:30:00", 20, 3, 2⟩] }) :=
  review_target_eq_window_sum "2025-09-12" 0
    { goals := [⟨"错题复盘", 5, none, none⟩],
      scheduleItems := some
        [⟨some "10:00", some "11:00", some "错题复盘-复盘", some "数量"⟩],
      records := [⟨1, "数量关系", "2025-09-12 09:30:00", 20, 3, 2⟩] }
    [⟨some "10:00", some "11:00", some "错题复盘-复盘", some "数量"⟩]
    ⟨some "10:00", some "11:00", some "错题复盘-复盘", some "数量"⟩
    ⟨"错题复盘", 5, none, none⟩
    ⟨2025, 9, 12, 0, 0, 0⟩ ⟨2025, 9, 12, 10, 0, 0⟩
    ⟨2025, 9, 12, 10, 0, 0⟩ ⟨2025, 9, 12, 11, 0, 59⟩
    (by decide) (by decide) rfl (by decide) (by decide) (by decide) (by decide)
    (by decide) (by decide)

/-! ## Claim C4 — the day aggregate -/

theorem dashGoalsProgress_targets (date : String) (tItems : List ScheduleItem)
    (recs : List SubmissionRecord) :
    ∀ (gs : List Goal) (i : ℕ) (gps : List GoalProgress),
      dashGoalsProgress date tItems recs i gs = some gps →
      gps.map GoalProgress.target_questions = gs.map Goal.target_questions := by
  intro gs
  induction gs with
  | nil =>
    intro i gps h
    cases h
    rfl
  | cons g gs ih =>
    intro i gps h
    dsimp only [dashGoalsProgress] at h
    split at h
    · cases h
    · rw [Option.map_eq_some'] at h
      obtain ⟨rest, hrest, hgps⟩ := h
      subst hgps
      simp [ih _ _ hrest]

theorem fallbackProgress_targets :
    ∀ (gs : List Goal) (i : ℕ),
      (fallbackProgress i gs).map GoalProgress.target_questions =
        gs.map Goal.target_questions := by
  intro gs
  induction gs with
  | nil => intro i; rfl
  | cons g gs ih => intro i; simp [fallbackProgress, ih]

/-- C4 counterexample: the reported `total_answered` is the day-summary sum
over **all** records (`sum(answered_by_category.values())`), not the sum of
the per-goal attributed answered counts: a record of the goal's own type but
outside the goal's window yields `total_answered = 5` while the per-goal
attributed counts sum to 0. -/
theorem day_total_answered_cex :
    (getDashboardData "2025-09-12"
      { goals := [⟨"言语理解与表达", 10, none, none⟩],
        scheduleItems := some
          [⟨some "10:00", some "11:00", some "言语理解-言语", some ""⟩],
        records := [⟨1, "言语理解与表达", "2025-09-12 12:00:00", 5, 0, 0⟩] }).map
      (fun o => (o.total_answered,
                 (o.goals_progress.map GoalProgress.answered_questions).sum)) =
      some (5, 0) ∧
    (5 : ℕ) ≠ 0 :=
  ⟨by decide, by decide⟩

/-- C4 amended: for every successful day computation, `total_target` is the
sum of `target_questions` over the reported goals, the day percentage is
`min(100, round(capped/total_target*100))` with `capped` the sum of
`min(answered, target)` over the reported goals (else 100 when the raw
answered total is positive, else 0) — but `total_answered` is the raw
day-summary total over **all** of the day's records (regardless of goal
windows), and that same raw total is the one consulted when
`total_target = 0`. -/
theorem day_aggregate_amended (date : String) (s : TDState) (out : DashOut)
    (h : getDashboardData date s = some out) :
    out.total_answered = summaryTotal s.records ∧
    out.total_target =
      (out.goals_progress.map GoalProgress.target_questions).sum ∧
    (out.percentage : ℤ) =
      specDayPercentage out.total_target
        ((out.goals_progress.map
          (fun gp => min gp.answered_questions gp.target_questions)).sum)
        (summaryTotal s.records) := by
  unfold getDashboardData at h
  split at h
  · rename_i items hitems
    split at h
    · try dsimp only at h
      split at h
      · cases h
      · rename_i goals1 hupd
        try dsimp only at h
        split at h
        · cases h
        · rename_i gps hgps
          cases h
          refine ⟨rfl, ?_, ?_⟩
          · dsimp only
            rw [dashGoalsProgress_targets date _ _ goals1 0 gps hgps]
          · dsimp only
            exact dayPct_cast _ _ _
    · try dsimp only at h
      split at h
      · cases h
        refine ⟨rfl, ?_, ?_⟩
        · dsimp only
          rw [fallbackProgress_targets s.goals 0]
        · dsimp only
          exact dayPct_cast _ _ _
      · cases h
        exact ⟨rfl, rfl,
          dayPct_cast 0 ((List.map
            (fun gp => min gp.answered_questions gp.target_questions)
            ([] : List GoalProgress)).sum) (summaryTotal s.records)⟩
  · try dsimp only at h
    split at h
    · cases h
      refine ⟨rfl, ?_, ?_⟩
      · dsimp only
        rw [fallbackProgress_targets s.goals 0]
      · dsimp only
        exact dayPct_cast _ _ _
    · cases h
      exact ⟨rfl, rfl,
        dayPct_cast 0 ((List.map
          (fun gp => min gp.answered_questions gp.target_questions)
          ([] : List GoalProgress)).sum) (summaryTotal s.records)⟩

/-- C4 amended, witness — the specification's own example: goals
A(target 20, answered 25) and B(target 10, answered 0) give
`total_target = 30`, capped sum 20, and day percentage 67. -/
theorem day_aggregate_amended_witness :
    ((getDashboardData "2025-09-12"
      { goals := [⟨"数量关系", 20, none, none⟩, ⟨"言语理解与表达", 10, none, none⟩],
        scheduleItems := some
          [⟨some "09:00", some "10:00", some "数量关系-数量", some ""⟩,
           ⟨some "11:00", some "12:00", some "言语理解-言语", some ""⟩],
        records := [⟨1, "数量关系", "2025-09-12 09:30:00", 25, 0, 0⟩] }).getD
      ⟨0, 0, 0, []⟩).total_answered =
      summaryTotal [⟨1, "数量关系", "2025-09-12 09:30:00", 25, 0, 0⟩] ∧
    ((getDashboardData "2025-09-12"
      { goals := [⟨"数量关系", 20, none, none⟩, ⟨"言语理解与表达", 10, none, none⟩],
        scheduleItems := some
          [⟨some "09:00", some "10:00", some "数量关系-数量", some ""⟩,
           ⟨some "11:00", some "12:00", some "言语理解-言语", some ""⟩],
        records := [⟨1, "数量关系", "2025-09-12 09:30:00", 25, 0, 0⟩] }).getD
      ⟨0, 0, 0, []⟩).total_target = 30 ∧
    ((getDashboardData "2025-09-12"
      { goals := [⟨"数量关系", 20, none, none⟩, ⟨"言语理解与表达", 10, none, none⟩],
        scheduleItems := some
          [⟨some "09:00", some "10:00", some "数量关系-数量", some ""⟩,
           ⟨some "11:00", some "12:00", some "言语理解-言语", some ""⟩],
        records := [⟨1, "数量关系", "2025-09-12 09:30:00", 25, 0, 0⟩] }).getD
      ⟨0, 0, 0, []⟩).percentage = 67 := by
  have h : getDashboardData "2025-09-12"
      { goals := [⟨"数量关系", 20, none, none⟩, ⟨"言语理解与表达", 10, none, none⟩],
        scheduleItems := some
          [⟨some "09:00", some "10:00", some "数量关系-数量", some ""⟩,
           ⟨some "11:00", some "12:00", some "言语理解-言语", some ""⟩],
        records := [⟨1, "数量关系", "2025-09-12 09:30:00", 25, 0, 0⟩] } =
      some ((getDashboardData "2025-09-12"
        { goals := [⟨"数量关系", 20, none, none⟩, ⟨"言语理解与表达", 10, none, none⟩],
          scheduleItems := some
            [⟨some "09:00", some "10:00", some "数量关系-数量", some ""⟩,
             ⟨some "11:00", some "12:00", some "言语理解-言语", some ""⟩],
          records := [⟨1, "数量关系", "2025-09-12 09:30:00", 25, 0, 0⟩] }).getD
        ⟨0, 0, 0, []⟩) := by decide
  exact ⟨(day_aggregate_amended _ _ _ h).1, by decide, by decide⟩
